import Mathlib

/-!
Verification of the refl1d core (experiment.py, model.py) against its
specification.  The Python sources are shallowly embedded: machine floats are
modelled as exact rationals extended with a NaN marker, the per-experiment
result cache as an association list, Python exceptions as an `Except` error
channel, and object identity (parameter cells, stack objects) as addresses
into explicit stores.  The optical kernel `refl` (abeles.py) and the
`Microslabs` buffer (profile.py) are not among the sources; `refl`'s output is
taken as an explicit argument where needed, and the buffer operations are
modelled from the specification (marked in their doc comments).
-/

set_option autoImplicit false

namespace Refl1d

/-- A floating-point value: an exact rational or the NaN marker.  Infinities
are not needed by any claim and are not modelled. -/
inductive F64 where
  | num (q : ℚ)
  | nan
deriving DecidableEq, Repr

/-- Embedding of `numpy.isnan` on one element. -/
def F64.isnan : F64 → Bool
  | .nan => true
  | .num _ => false

/-- Addition with NaN propagation. -/
def F64.add : F64 → F64 → F64
  | .num a, .num b => .num (a + b)
  | _, _ => .nan

/-- Subtraction with NaN propagation. -/
def F64.sub : F64 → F64 → F64
  | .num a, .num b => .num (a - b)
  | _, _ => .nan

/-- Multiplication with NaN propagation. -/
def F64.mul : F64 → F64 → F64
  | .num a, .num b => .num (a * b)
  | _, _ => .nan

/-- Division with NaN propagation; division by zero is also mapped to NaN
(no claim depends on signed infinities). -/
def F64.div : F64 → F64 → F64
  | .num a, .num b => if b = 0 then .nan else .num (a / b)
  | _, _ => .nan

/-- A complex amplitude value, as produced by the optical recursion. -/
structure C64 where
  re : F64
  im : F64
deriving DecidableEq, Repr

/-- Embedding of `numpy.isnan` on a complex value: true when either component is NaN. -/
def C64.isnan (c : C64) : Bool := c.re.isnan || c.im.isnan

/-- Embedding of `abs(r)**2` for a complex amplitude, with NaN propagation. -/
def C64.sqabs (c : C64) : F64 := (c.re.mul c.re).add (c.im.mul c.im)

/-- Elementwise subtraction of two numpy arrays. -/
def listSub (a b : List F64) : List F64 := List.zipWith F64.sub a b

/-- Elementwise division of two numpy arrays. -/
def listDiv (a b : List F64) : List F64 := List.zipWith F64.div a b

/-- Python exceptions that the embedded code can raise. -/
inductive PyError where
  | valueError (msg : String)
  | typeError
  | nameError (missing : String)
  | attributeError (missing : String)
deriving DecidableEq, Repr

/-! ### The experiment result cache (`ExperimentBase._cache`)

`experiment.py` keys its cache dictionary by the strings `'rendered'`,
`'calc_r'`, `'amplitude'`, `'residuals'`, `'nllf_scale'`, `'step_profile'`
and the tuples `('reflectivity', resolution, beam)`,
`('smooth_profile', dz)`. -/

/-- The cache keys used by `experiment.py`. -/
inductive CacheKey where
  | rendered
  | calc_r
  | amplitude
  | reflectivity (resolution beam : Bool)
  | smooth_profile (dz : ℚ)
  | step_profile
  | residuals
  | nllf_scale
deriving DecidableEq, Repr

/-- The values stored in the cache. -/
inductive CVal where
  | flag (b : Bool)
  | arr (xs : List F64)
  | carr (xs : List C64)
  | qr (q r : List F64)
deriving DecidableEq, Repr

/-- The cache dictionary, as an association list; the most recent binding for
a key shadows older ones. -/
def Cache := List (CacheKey × CVal)

/-- The empty cache (`self._cache = {}` in `Experiment.__init__`). -/
def Cache.empty : Cache := []

/-- Dictionary lookup (`key in self._cache` / `self._cache[key]`). -/
def Cache.lookup : Cache → CacheKey → Option CVal
  | [], _ => none
  | (k, v) :: c, key => if k = key then some v else Cache.lookup c key

/-- Dictionary store (`self._cache[key] = v`). -/
def Cache.insert (c : Cache) (k : CacheKey) (v : CVal) : Cache := (k, v) :: c

/-- Embedding of `ExperimentBase.update`: `self._cache = {}` — the whole cache is
discarded. -/
def update (_c : Cache) : Cache := []

/-- The memoization pattern shared by every cached query in `experiment.py`:
if the key is absent, compute from the current parameter values and store;
otherwise return the stored value. -/
def getCached (c : Cache) (k : CacheKey) (compute : CVal) : CVal × Cache :=
  match c.lookup k with
  | some v => (v, c)
  | none => (compute, c.insert k compute)

/-- C3: `update()` removes every entry from the result cache — afterwards no
key is present, so the next query of any cached quantity returns the value
freshly computed from the current parameter values, never a value computed
before the `update()`. -/
theorem C3_update_clears_every_entry (c : Cache) (k : CacheKey) (compute : CVal) :
    (update c).lookup k = none ∧ getCached (update c) k compute = (compute, [(k, compute)]) := by
  exact ⟨rfl, rfl⟩

/-! ### The `Experiment` computation pipeline -/

/-- The probe collaborator, as used by `Experiment`: measured grid `Q`,
calculation grid `calc_Q`, optional data `R`/`dR`, and the resolution and
beam-correction projections. -/
structure Probe where
  Q : List F64
  calc_Q : List F64
  R : Option (List F64)
  dR : Option (List F64)
  resolution : List F64 → List F64
  beam_parameters : List F64 → List F64

/-- Embedding of `Experiment._reflamp`.  The optical kernel `refl` (abeles.py, not among
the sources) is abstracted: its output on the currently rendered slabs is the
argument `reflOut`.  If `'calc_r'` is absent from the cache the code computes
`calc_r`, stores it under `'calc_r'`, and only then tests `calc_Q` and
`calc_r` for NaN — each test merely prints a warning message.  Returns the
value handed to the caller, the new cache, and the printed warnings. -/
def reflamp (calc_Q : List F64) (reflOut : List C64) (c : Cache) :
    List C64 × Cache × List String :=
  match c.lookup CacheKey.calc_r with
  | some (CVal.carr r) => (r, c, [])
  | some _ => ([], c, [])
  | none =>
    let calc_r := reflOut
    let c1 := c.insert CacheKey.calc_r (CVal.carr calc_r)
    let warnQ := if calc_Q.any F64.isnan then ["calc_Q contains NaN"] else []
    let warnR := if calc_r.any C64.isnan then ["calc_r contains NaN"] else []
    (calc_r, c1, warnQ ++ warnR)

/-- Embedding of `Experiment.reflectivity(resolution, beam)`: look up
`('reflectivity', resolution, beam)`; on a miss take `calc_r` from
`_reflamp`, square its magnitude, optionally project through the probe's
resolution onto `Q`, optionally apply the beam corrections, and cache the
`(Q, R)` pair. -/
def reflectivity (p : Probe) (reflOut : List C64) (c : Cache)
    (resolution beam : Bool) : (List F64 × List F64) × Cache :=
  let key := CacheKey.reflectivity resolution beam
  match c.lookup key with
  | some (CVal.qr q r) => ((q, r), c)
  | some _ => (([], []), c)
  | none =>
    let ra := reflamp p.calc_Q reflOut c
    let calc_R := ra.1.map C64.sqabs
    let qr0 := if resolution then (p.Q, p.resolution calc_R) else (p.calc_Q, calc_R)
    let qr1 := if beam then (qr0.1, p.beam_parameters qr0.2) else qr0
    (qr1, (ra.2.1).insert key (CVal.qr qr1.1 qr1.2))

/-- Embedding of `ExperimentBase.residuals`: raise `ValueError` at once when `probe.R` is
`None`; otherwise, on a cache miss, call `self.reflectivity()` and store
`(probe.R - R)/probe.dR`.  When `probe.dR` is `None` that division raises a
`TypeError` — after the reflectivity has already been computed and cached. -/
def residuals (p : Probe) (reflOut : List C64) (c : Cache) :
    Except PyError (List F64) × Cache :=
  match p.R with
  | none => (Except.error (PyError.valueError "No data from which to calculate residuals"), c)
  | some Rdata =>
    match c.lookup CacheKey.residuals with
    | some (CVal.arr v) => (Except.ok v, c)
    | some _ => (Except.ok [], c)
    | none =>
      let rr := reflectivity p reflOut c true true
      match p.dR with
      | none => (Except.error PyError.typeError, rr.2)
      | some dRdata =>
        let v := listDiv (listSub Rdata rr.1.2) dRdata
        (Except.ok v, rr.2.insert CacheKey.residuals (CVal.arr v))

/-- A probe carrying neither measured reflectivity nor anything unusual:
used to evaluate the embedded pipeline at concrete inputs. -/
def probeNoR : Probe :=
  { Q := [F64.num 1], calc_Q := [F64.num 1], R := none, dR := some [F64.num 1],
    resolution := id, beam_parameters := id }

/-- A probe with measured reflectivity but no uncertainty `dR`. -/
def probeNoDR : Probe :=
  { Q := [F64.num 1], calc_Q := [F64.num 1], R := some [F64.num 1], dR := none,
    resolution := id, beam_parameters := id }

/-- A probe with both measured reflectivity and uncertainty. -/
def probeFull : Probe :=
  { Q := [F64.num 1], calc_Q := [F64.num 1], R := some [F64.num 1], dR := some [F64.num 2],
    resolution := id, beam_parameters := id }

/-- C2, counterexample: with the optical recursion producing the amplitude
array `[NaN + 0i]` on a fresh cache, `_reflamp` raises nothing, returns the
NaN-containing array to the caller, and stores it under `'calc_r'` — the
claim says such a result is never cached and never returned. -/
theorem C2_counterexample :
    (reflamp [F64.num 0] [⟨F64.nan, F64.num 0⟩] Cache.empty).1.any C64.isnan = true ∧
    (reflamp [F64.num 0] [⟨F64.nan, F64.num 0⟩] Cache.empty).2.1.lookup CacheKey.calc_r
      = some (CVal.carr [⟨F64.nan, F64.num 0⟩]) := by
  constructor <;> rfl

/-- C2, amended: whenever the computed amplitude contains a non-finite value,
`_reflamp` stores the result in the cache and returns it to the caller
unchanged; the NaN is only reported by printing the warning
`"calc_r contains NaN"` after the result has been cached. -/
theorem C2_reflamp_caches_and_returns_nan (cq : List F64) (ro : List C64)
    (h : ro.any C64.isnan = true) :
    (reflamp cq ro Cache.empty).1 = ro ∧
    (reflamp cq ro Cache.empty).2.1.lookup CacheKey.calc_r = some (CVal.carr ro) ∧
    "calc_r contains NaN" ∈ (reflamp cq ro Cache.empty).2.2 := by
  refine ⟨rfl, rfl, ?_⟩
  show "calc_r contains NaN" ∈
    ((if cq.any F64.isnan then ["calc_Q contains NaN"] else []) ++
      (if ro.any C64.isnan then ["calc_r contains NaN"] else []))
  rw [h]
  simp

/-- Witness for `C2_reflamp_caches_and_returns_nan` at the concrete amplitude
array `[NaN + 0i]`. -/
theorem C2_witness :
    (reflamp [F64.num 2] [⟨F64.nan, F64.num 0⟩] Cache.empty).1 = [⟨F64.nan, F64.num 0⟩] ∧
    (reflamp [F64.num 2] [⟨F64.nan, F64.num 0⟩] Cache.empty).2.1.lookup CacheKey.calc_r
      = some (CVal.carr [⟨F64.nan, F64.num 0⟩]) ∧
    "calc_r contains NaN" ∈ (reflamp [F64.num 2] [⟨F64.nan, F64.num 0⟩] Cache.empty).2.2 :=
  C2_reflamp_caches_and_returns_nan [F64.num 2] [⟨F64.nan, F64.num 0⟩] (by decide)

/-- C6, counterexample: on a probe with measured `R` but `dR` absent,
`residuals()` does attempt the reflectivity computation — the cache it leaves
behind holds a `('reflectivity', True, True)` entry — and only then fails with
a `TypeError` from dividing by `None`; the claim says the error is raised
without attempting the reflectivity computation. -/
theorem C6_counterexample :
    (residuals probeNoDR [⟨F64.nan, F64.num 0⟩] Cache.empty).1
      = Except.error PyError.typeError ∧
    (residuals probeNoDR [⟨F64.nan, F64.num 0⟩] Cache.empty).2.lookup
        (CacheKey.reflectivity true true) = some (CVal.qr [F64.num 1] [F64.nan]) := by
  exact ⟨rfl, rfl⟩

/-- C6, amended: `residuals()` raises `ValueError` immediately (leaving the
cache untouched, so no reflectivity is attempted) when the probe has no
measured `R`; when `R` is present but `dR` is absent it first computes and
caches the reflectivity and only then raises a `TypeError` at the division;
when both are present it returns `(R_measured - R_theory)/dR`. -/
theorem C6_residuals_behaviour (p : Probe) (ro : List C64) :
    (p.R = none →
      residuals p ro Cache.empty =
        (Except.error (PyError.valueError "No data from which to calculate residuals"),
          Cache.empty)) ∧
    (∀ Rdata, p.R = some Rdata → p.dR = none →
      (residuals p ro Cache.empty).1 = Except.error PyError.typeError ∧
      (residuals p ro Cache.empty).2.lookup (CacheKey.reflectivity true true) ≠ none) ∧
    (∀ Rdata dRdata, p.R = some Rdata → p.dR = some dRdata →
      (residuals p ro Cache.empty).1 =
        Except.ok (listDiv (listSub Rdata (reflectivity p ro Cache.empty true true).1.2)
          dRdata)) := by
  obtain ⟨Q, cQ, R, dR, res, beam⟩ := p
  refine ⟨?_, ?_, ?_⟩
  · rintro rfl
    rfl
  · rintro Rdata rfl rfl
    exact ⟨rfl, by simp [residuals, reflectivity, reflamp, Cache.empty, Cache.lookup,
      Cache.insert]⟩
  · rintro Rdata dRdata rfl rfl
    rfl

/-- Witness for `C6_residuals_behaviour` at three concrete probes, one per
case of the amended claim. -/
theorem C6_witness :
    residuals probeNoR [⟨F64.num 0, F64.num 0⟩] Cache.empty =
      (Except.error (PyError.valueError "No data from which to calculate residuals"),
        Cache.empty) ∧
    (residuals probeNoDR [⟨F64.num 0, F64.num 0⟩] Cache.empty).1
      = Except.error PyError.typeError ∧
    (residuals probeFull [⟨F64.num 0, F64.num 0⟩] Cache.empty).1 =
      Except.ok (listDiv
        (listSub [F64.num 1]
          (reflectivity probeFull [⟨F64.num 0, F64.num 0⟩] Cache.empty true true).1.2)
        [F64.num 2]) :=
  ⟨(C6_residuals_behaviour probeNoR _).1 rfl,
   ((C6_residuals_behaviour probeNoDR _).2.1 [F64.num 1] rfl rfl).1,
   (C6_residuals_behaviour probeFull _).2.2 [F64.num 1] [F64.num 2] rfl rfl⟩

/-! ### Composite and distribution experiments -/

/-- Embedding of `CompositeExperiment.__init__`: the line
`self.ratio = [Parameter.default(r) for r in ratio]` evaluates the name
`Parameter`, which is neither defined nor imported in experiment.py, so the
comprehension raises `NameError` as soon as the ratio list is non-empty. -/
def compositeInit (ratio : List ℚ) : Except PyError (List ℚ) :=
  match ratio with
  | [] => Except.ok []
  | _ :: _ => Except.error (PyError.nameError "Parameter")

/-- C1: constructing the `CompositeExperiment` of the claim — any non-trivial
ratio vector, in particular `[1, 1]` — raises `NameError` on the undefined
name `Parameter`, so `reflectivity` can never return the weighted sum the
claim describes. -/
theorem C1_composite_init_raises :
    compositeInit [1, 1] = Except.error (PyError.nameError "Parameter") := rfl

/-- Embedding of `Weights.__init__`: `self.loc = Parameter.default(loc)` also evaluates
the undefined name `Parameter`, so every `Weights` construction raises
`NameError` regardless of the edge vector. -/
def weightsInit (_edges : List ℚ) : Except PyError (List ℚ) :=
  Except.error (PyError.nameError "Parameter")

/-- Embedding of `Weights.__iter__`, on the default `truncated=True` path, given the cdf
values at the bin edges: the bin centers and the relative weights
(differences of consecutive cumulative values) are computed, the total is
summed, and when it is zero an empty iterator is returned; otherwise the
filtering line `idx = weigths > 0` references the undefined name `weigths`
(a typo for `weights`) and raises `NameError`. -/
def weightsIter (edges cdfAtEdges : List ℚ) : Except PyError (List (ℚ × ℚ)) :=
  let _centers := List.zipWith (fun a b => (a + b) / 2) edges.dropLast edges.tail
  let relative := List.zipWith (fun a b => a - b) cdfAtEdges.tail cdfAtEdges.dropLast
  let total := relative.sum
  if total = 0 then Except.ok []
  else Except.error (PyError.nameError "weigths")

/-- Embedding of `DistributionExperiment.__init__`: the line `self.x = x` references the
undefined name `x` and raises `NameError`, so no `DistributionExperiment`
can be constructed at all. -/
def distributionInit : Except PyError Unit := Except.error (PyError.nameError "x")

/-- C7: at the claim's own configuration — a `Weights` distribution with one
bin `[0, 2]` carrying total weight 1 (cdf values 0 and 1 at the edges),
centered at `v = 1` — every stage the claim relies on raises `NameError`:
`DistributionExperiment` cannot be constructed (`x` undefined), `Weights`
cannot be constructed (`Parameter` undefined), and even given a constructed
object the iteration over `(value, weight)` pairs fails on the typo
`weigths`.  The claimed equality with the wrapped reflectivity at `v` is
therefore unreachable. -/
theorem C7_distribution_raises :
    distributionInit = Except.error (PyError.nameError "x") ∧
    weightsInit [0, 2] = Except.error (PyError.nameError "Parameter") ∧
    weightsIter [0, 2] [0, 1] = Except.error (PyError.nameError "weigths") := by
  refine ⟨rfl, rfl, ?_⟩
  norm_num [weightsIter]

/-! ### The layer model (model.py) and the microslab buffer -/

/-- One microslab: thickness `w`, SLD `(rho, irho)`, and the roughness
`sigma` of the interface at the top of the slab — the four values one
`Slab.render` call appends. -/
structure MSlab where
  w : ℚ
  rho : ℚ
  irho : ℚ
  sigma : ℚ
deriving DecidableEq, Repr

/-- Modelled from the spec: the `Microslabs` buffer (profile.py is not among
the sources) is an append-only sequence of slabs (§4.2). -/
abbrev Slabs := List MSlab

/-- Modelled from the spec: `extend` appends one or more slabs (§4.2). -/
def Slabs.extend (buf : Slabs) (new : List MSlab) : Slabs := buf ++ new

/-- Modelled from the spec: `repeat(mark, count)` duplicates the slab span
from index `mark` to the current end so that the span appears `count` times
in total; §4.1 fixes this reading (the span is duplicated `repeat − 1`
*additional* times, and a repeat count of 1 must introduce no duplicate). -/
def Slabs.rep (buf : Slabs) (mark count : ℕ) : Slabs :=
  buf.take mark ++ (List.replicate count (buf.drop mark)).flatten

/-- Modelled from the spec: `interface(width)` overwrites the roughness value
associated with the boundary immediately preceding the next appended slab,
i.e. the `sigma` of the last slab currently in the buffer (§4.2). -/
def Slabs.setInterface : Slabs → ℚ → Slabs
  | [], _ => []
  | [s], v => [{ s with sigma := v }]
  | s :: rest, v => s :: Slabs.setInterface rest v

/-- The rendering layer variants: a uniform `Slab` (with its SLD already
looked up through the probe), a `Stack` of child layers, and a `Repeat` of an
inner stack with an optional explicit capping interface. -/
inductive LayerM where
  | slab (rho irho w sigma : ℚ)
  | stack (layers : List LayerM)
  | rep (inner : LayerM) (count : ℕ) (capInterface : Option ℚ)

mutual

/-- Embedding of `render(probe, slabs)` per variant.  `Slab.render` appends one slab with
its SLD, thickness and interface width.  `Stack.render` renders the children
in order.  `Repeat.render` records `mark = len(slabs)` and reads the repeat
count `nr`; with no capping interface it renders the inner stack once and
duplicates the span to `nr` copies provided `nr > 0`; with a capping
interface it duplicates to `nr − 1` copies only when `nr > 1`, then
unconditionally renders the inner stack once more and overwrites the final
interface width. -/
def LayerM.render : LayerM → Slabs → Slabs
  | .slab rho irho w sigma, buf => buf.extend [⟨w, rho, irho, sigma⟩]
  | .stack ls, buf => renderList ls buf
  | .rep inner nr itf, buf =>
    let mark := buf.length
    match itf with
    | none => if 0 < nr then Slabs.rep (inner.render buf) mark nr else buf
    | some v =>
      let buf1 := if 1 < nr then Slabs.rep (inner.render buf) mark (nr - 1) else buf
      Slabs.setInterface (inner.render buf1) v

/-- Embedding of `Stack.render`: render each child layer in sequence order. -/
def renderList : List LayerM → Slabs → Slabs
  | [], buf => buf
  | l :: ls, buf => renderList ls (l.render buf)

end

/-- C4: with no capping interface a `Repeat` of count 0 appends nothing, but
with an explicit capping interface the `else` branch of `Repeat.render`
unconditionally renders the inner stack once — here a repeat of count 0 over
a single slab `(rho, irho, w, sigma) = (1, 0, 10, 0)` capped with interface 2
leaves one slab in the buffer instead of zero. -/
theorem C4_repeat_zero_renders_capped_copy :
    LayerM.render (LayerM.rep (LayerM.stack [LayerM.slab 1 0 10 0]) 0 none) [] = [] ∧
    LayerM.render (LayerM.rep (LayerM.stack [LayerM.slab 1 0 10 0]) 0 (some 2)) []
      = [⟨10, 1, 0, 2⟩] :=
  ⟨rfl, rfl⟩

/-- Duplicating a span to one total copy, `repeat(mark, 1)`, leaves the buffer unchanged: one copy of the span is no
duplication. -/
theorem Slabs.rep_one (buf : Slabs) (mark : ℕ) : Slabs.rep buf mark 1 = buf := by
  simp [Slabs.rep]

/-- C5, counterexample: a `Repeat` of count 1 whose capping interface is 5
over a single slab of interface width 0 renders a buffer whose final
interface width is 5, which differs from rendering the inner stack directly
once. -/
theorem C5_counterexample :
    LayerM.render (LayerM.rep (LayerM.stack [LayerM.slab 1 0 10 0]) 1 (some 5)) [] ≠
      LayerM.render (LayerM.stack [LayerM.slab 1 0 10 0]) [] := by
  decide

/-- C5, amended: a `Repeat` of count 1 with no capping interface renders
exactly as rendering the inner stack directly once into the same buffer;
with a capping interface the same single copy is rendered (no duplicated
span) and only the final interface width is overwritten by the capping
value. -/
theorem C5_repeat_once (ls : List LayerM) (buf : Slabs) (v : ℚ) :
    LayerM.render (LayerM.rep (LayerM.stack ls) 1 none) buf
      = LayerM.render (LayerM.stack ls) buf ∧
    LayerM.render (LayerM.rep (LayerM.stack ls) 1 (some v)) buf
      = Slabs.setInterface (LayerM.render (LayerM.stack ls) buf) v := by
  constructor
  · show Slabs.rep (LayerM.render (LayerM.stack ls) buf) buf.length 1
      = LayerM.render (LayerM.stack ls) buf
    exact Slabs.rep_one _ _
  · rfl

/-! ### Helper lemmas about list stores -/

/-- Reading just past the end of a list extended by one element yields the
new element. -/
theorem getD_concat_self {α : Type} (l : List α) (v d : α) :
    (l ++ [v]).getD l.length d = v := by
  rw [List.getD_append_right _ _ _ _ (Nat.le_refl _)]
  simp

/-- Writing one index leaves reads at any other index unchanged. -/
theorem getD_set_ne {α : Type} (l : List α) (i j : ℕ) (v d : α) (h : j ≠ i) :
    (l.set i v).getD j d = l.getD j d := by
  rw [List.getD_eq_getElem?_getD, List.getD_eq_getElem?_getD,
    List.getElem?_set_ne (Ne.symm h)]

/-- Reading a just-written valid index yields the written value. -/
theorem getD_set_self {α : Type} (l : List α) (i : ℕ) (v d : α) (h : i < l.length) :
    (l.set i v).getD i d = v := by
  rw [List.getD_eq_getElem?_getD, List.getElem?_set_self h]
  rfl

/-! ### Parameter identity and the copy-on-write layer algebra -/

/-- The parameter heap: `Parameter` objects are boxed scalar cells with
identity, modelled as indices into this store. -/
structure PStore where
  cells : List ℚ
deriving DecidableEq, Repr

/-- Embedding of `p.value`: read a parameter cell. -/
def PStore.read (s : PStore) (a : ℕ) : ℚ := s.cells.getD a 0

/-- Embedding of `copy(parameter)`: allocate a fresh cell holding the given value and
return its address. -/
def PStore.alloc (s : PStore) (v : ℚ) : PStore × ℕ :=
  ({ cells := s.cells ++ [v] }, s.cells.length)

/-- Embedding of `p.set(x)`: overwrite a parameter cell in place. -/
def PStore.write (s : PStore) (a : ℕ) (v : ℚ) : PStore :=
  { cells := s.cells.set a v }

/-- A layer object as `Layer.__div__`/`Layer.__mod__` sees it: the two
parameter cells it owns. -/
structure LayerObj where
  thickness : ℕ
  interface : ℕ
deriving DecidableEq, Repr

/-- Embedding of `Layer.__div__(other)`: `c = copy(self)` (a shallow copy sharing both
cells), then `c.thickness = copy(self.thickness)` (a fresh cell holding the
current thickness value), then `c.thickness.set(other)`. -/
def layerDiv (s : PStore) (L : LayerObj) (t : ℚ) : PStore × LayerObj :=
  let al := s.alloc (s.read L.thickness)
  (al.1.write al.2 t, { L with thickness := al.2 })

/-- Embedding of `Layer.__mod__(other)`: the same copy-on-write step on the interface
cell: `c = copy(self)`, `c.interface = copy(self.interface)`,
`c.interface.set(other)`. -/
def layerMod (s : PStore) (L : LayerObj) (r : ℚ) : PStore × LayerObj :=
  let al := s.alloc (s.read L.interface)
  (al.1.write al.2 r, { L with interface := al.2 })

/-- C8: `L / t` yields a layer whose thickness cell is a distinct fresh copy
set to `t` while the original thickness cell keeps its address and value
(and the new layer still shares the interface cell); symmetrically `L % r`
for the interface cell. -/
theorem C8_div_mod_copy_on_write (s : PStore) (L : LayerObj) (t r : ℚ)
    (ht : L.thickness < s.cells.length) (hi : L.interface < s.cells.length) :
    ((layerDiv s L t).2.thickness ≠ L.thickness ∧
     (layerDiv s L t).1.read (layerDiv s L t).2.thickness = t ∧
     (layerDiv s L t).1.read L.thickness = s.read L.thickness ∧
     (layerDiv s L t).2.interface = L.interface) ∧
    ((layerMod s L r).2.interface ≠ L.interface ∧
     (layerMod s L r).1.read (layerMod s L r).2.interface = r ∧
     (layerMod s L r).1.read L.interface = s.read L.interface ∧
     (layerMod s L r).2.thickness = L.thickness) := by
  constructor
  · refine ⟨Nat.ne_of_gt ht, ?_, ?_, rfl⟩
    · show (((s.cells ++ [s.read L.thickness]).set s.cells.length t).getD s.cells.length 0) = t
      exact getD_set_self _ _ _ _ (by simp)
    · show (((s.cells ++ [s.read L.thickness]).set s.cells.length t).getD L.thickness 0)
        = s.cells.getD L.thickness 0
      rw [getD_set_ne _ _ _ _ _ (Nat.ne_of_lt ht), List.getD_append _ _ _ _ ht]
  · refine ⟨Nat.ne_of_gt hi, ?_, ?_, rfl⟩
    · show (((s.cells ++ [s.read L.interface]).set s.cells.length r).getD s.cells.length 0) = r
      exact getD_set_self _ _ _ _ (by simp)
    · show (((s.cells ++ [s.read L.interface]).set s.cells.length r).getD L.interface 0)
        = s.cells.getD L.interface 0
      rw [getD_set_ne _ _ _ _ _ (Nat.ne_of_lt hi), List.getD_append _ _ _ _ hi]

/-- Witness for `C8_div_mod_copy_on_write` on a two-cell store holding
`[7, 3]` with a layer owning cell 0 (thickness) and cell 1 (interface). -/
theorem C8_witness :
    ((layerDiv ⟨[7, 3]⟩ ⟨0, 1⟩ 11).2.thickness ≠ 0 ∧
     (layerDiv ⟨[7, 3]⟩ ⟨0, 1⟩ 11).1.read (layerDiv ⟨[7, 3]⟩ ⟨0, 1⟩ 11).2.thickness = 11 ∧
     (layerDiv ⟨[7, 3]⟩ ⟨0, 1⟩ 11).1.read 0 = PStore.read ⟨[7, 3]⟩ 0 ∧
     (layerDiv ⟨[7, 3]⟩ ⟨0, 1⟩ 11).2.interface = 1) ∧
    ((layerMod ⟨[7, 3]⟩ ⟨0, 1⟩ 13).2.interface ≠ 1 ∧
     (layerMod ⟨[7, 3]⟩ ⟨0, 1⟩ 13).1.read (layerMod ⟨[7, 3]⟩ ⟨0, 1⟩ 13).2.interface = 13 ∧
     (layerMod ⟨[7, 3]⟩ ⟨0, 1⟩ 13).1.read 1 = PStore.read ⟨[7, 3]⟩ 1 ∧
     (layerMod ⟨[7, 3]⟩ ⟨0, 1⟩ 13).2.thickness = 0) :=
  C8_div_mod_copy_on_write ⟨[7, 3]⟩ ⟨0, 1⟩ 11 13 (by decide) (by decide)

/-! ### `Stack` thickness and `Stack` copying -/

/-- Embedding of `Stack._thickness` (the body of the `thickness` property): accumulate the
children's thicknesses into `t`, then evaluate `return t*self.repeat`; a
`Stack` defines no attribute `repeat` (only `Repeat` objects do), so the
attribute lookup raises `AttributeError` on every stack. -/
def stackThickness (childThickness : List ℚ) : Except PyError ℚ :=
  let _t := childThickness.foldl (fun a b => a + b) 0
  Except.error (PyError.attributeError "repeat")

/-- C9: reading the thickness of a `Stack` never succeeds — the property body
ends in `t*self.repeat` and `Stack` has no `repeat` attribute — so in
particular it cannot return the total thickness of the child layers. -/
theorem C9_stack_thickness_raises (childThickness : List ℚ) :
    stackThickness childThickness = Except.error (PyError.attributeError "repeat") := rfl

/-- The store of `Stack` objects: each stack is an address holding its
`_layers` list; the layer objects themselves are opaque identities (`ℕ`). -/
structure SStore where
  objs : List (List ℕ)
deriving DecidableEq, Repr

/-- The `_layers` list of the stack at address `a`. -/
def SStore.layersOf (s : SStore) (a : ℕ) : List ℕ := s.objs.getD a []

/-- Embedding of `Stack.__copy__`: build a new `Stack` object, copy the attribute
dictionary, then replace `_layers` by the slice copy `self._layers[:]` — a
fresh list holding the same layer objects. -/
def stackCopy (s : SStore) (a : ℕ) : SStore × ℕ :=
  ({ objs := s.objs ++ [s.layersOf a] }, s.objs.length)

/-- Embedding of `Stack.add` for a single layer: extend `self._layers` in place. -/
def stackAdd (s : SStore) (a : ℕ) (layer : ℕ) : SStore :=
  { objs := s.objs.set a (s.layersOf a ++ [layer]) }

/-- Embedding of `Stack.__delitem__(idx)`: `del self._layers[idx]` in place. -/
def stackDel (s : SStore) (a : ℕ) (idx : ℕ) : SStore :=
  { objs := s.objs.set a ((s.layersOf a).eraseIdx idx) }

/-- C10: `copy(stack)` yields a distinct stack object holding the same layer
objects in the same order, and afterwards adding a layer to the copy or
deleting a layer from the copy leaves the original stack's layer sequence
unchanged. -/
theorem C10_stack_copy_independent (s : SStore) (a : ℕ) (h : a < s.objs.length)
    (x idx : ℕ) :
    (stackCopy s a).2 ≠ a ∧
    (stackCopy s a).1.layersOf (stackCopy s a).2 = s.layersOf a ∧
    (stackAdd (stackCopy s a).1 (stackCopy s a).2 x).layersOf a = s.layersOf a ∧
    (stackDel (stackCopy s a).1 (stackCopy s a).2 idx).layersOf a = s.layersOf a := by
  refine ⟨Nat.ne_of_gt h, ?_, ?_, ?_⟩
  · exact getD_concat_self _ _ _
  · show (((s.objs ++ [s.layersOf a]).set s.objs.length _).getD a []) = s.objs.getD a []
    rw [getD_set_ne _ _ _ _ _ (Nat.ne_of_lt h), List.getD_append _ _ _ _ h]
  · show (((s.objs ++ [s.layersOf a]).set s.objs.length _).getD a []) = s.objs.getD a []
    rw [getD_set_ne _ _ _ _ _ (Nat.ne_of_lt h), List.getD_append _ _ _ _ h]

/-- Witness for `C10_stack_copy_independent`: a store with one stack `[5, 6]`
at address 0, adding layer 9 to the copy and deleting index 0 from the
copy. -/
theorem C10_witness :
    (stackCopy ⟨[[5, 6]]⟩ 0).2 ≠ 0 ∧
    (stackCopy ⟨[[5, 6]]⟩ 0).1.layersOf (stackCopy ⟨[[5, 6]]⟩ 0).2
      = SStore.layersOf ⟨[[5, 6]]⟩ 0 ∧
    (stackAdd (stackCopy ⟨[[5, 6]]⟩ 0).1 (stackCopy ⟨[[5, 6]]⟩ 0).2 9).layersOf 0
      = SStore.layersOf ⟨[[5, 6]]⟩ 0 ∧
    (stackDel (stackCopy ⟨[[5, 6]]⟩ 0).1 (stackCopy ⟨[[5, 6]]⟩ 0).2 0).layersOf 0
      = SStore.layersOf ⟨[[5, 6]]⟩ 0 :=
  C10_stack_copy_independent ⟨[[5, 6]]⟩ 0 (by decide) 9 0

end Refl1d
